import Mathlib

/-!
# SyncSetInstance REST proxy (hive apiserver registry)

A shallow embedding of `pkg/hive/apiserver/registry/syncsetinstance/proxy.go`.

The proxy is glue between the generic storage contract of the apiserver and a
remote typed client.  Everything the proxy calls but does not own (the typed
client, the conversion helpers of package `util`, the list option conversion of
apimachinery) is a field of the structure `REST`, so the theorems hold for every
behaviour of these collaborators.  The remote store is an explicit state that
every client call may change, and every call made on the client is appended to
a call log.
-/

set_option linter.dupNamespace false

namespace SyncSetInstanceProxy

/-! ## Data model -/

/-- The types the proxy handles without looking inside them. -/
structure Kinds where
  /-- State of the remote store behind the typed client. -/
  Store : Type
  /-- Persisted representation, `hivev1.SyncSetInstance`. -/
  V1 : Type
  /-- Logical representation, `hiveapi.SyncSetInstance`. -/
  Api : Type
  /-- List metadata, `metav1.ListMeta`. -/
  ListMeta : Type
  /-- Pointer to `metainternal.ListOptions`. -/
  InternalListOptions : Type
  /-- Value of `metav1.ListOptions`. -/
  ListOptions : Type
  /-- Value of `metav1.GetOptions`. -/
  GetOptions : Type
  /-- Pointer to `metav1.DeleteOptions`. -/
  DeleteOptions : Type
  /-- Pointer to `metav1.CreateOptions`. -/
  CreateOptions : Type
  /-- Pointer to `metav1.UpdateOptions`. -/
  UpdateOptions : Type

/-- Reasons of `metav1.Status` errors (the ones named in this development). -/
inductive StatusReason where
  | BadRequest
  | NotFound
  | AlreadyExists
  | Conflict
  | Unknown
  deriving DecidableEq, Repr

/-- Go `error` values: an `*apierrors.StatusError` with reason, HTTP code and
message, or any other error. -/
inductive GoError where
  | status (reason : StatusReason) (code : Nat) (message : String)
  | other (message : String)
  deriving DecidableEq, Repr

/-- Modelled from the spec: `apierrors.NewBadRequest` of apimachinery is not
among the sources; it builds the bad-request (client) error, HTTP code 400,
carrying the given message. -/
def NewBadRequest (reason : String) : GoError :=
  GoError.status StatusReason.BadRequest 400 reason

/-- The part of `metav1.Status` that `Delete` fills in. -/
structure Status where
  Status : String
  deriving DecidableEq, Repr

/-- The constant `metav1.StatusSuccess`. -/
def StatusSuccess : String := "Success"

/-- The call context: it carries an optional namespace value. -/
structure Context where
  ns : Option String
  deriving DecidableEq, Repr

/-- The accessor `apirequest.NamespaceFrom`: the namespace and whether the
context carries one. -/
def NamespaceFrom (ctx : Context) : String × Bool :=
  match ctx.ns with
  | some ns => (ns, true)
  | none => ("", false)

/-- The list types `hivev1.SyncSetInstanceList` and
`hiveapi.SyncSetInstanceList`: list metadata and items. -/
structure SyncSetInstanceList (Item Meta : Type) where
  ListMeta : Meta
  Items : List Item

/-- A call made on the remote client.  `SyncSetInstances` is the request for the
namespace-scoped sub-client; the other five are the remote operations of that
sub-client. -/
inductive Call (K : Kinds) where
  | SyncSetInstances (ns : String)
  | List (ns : String) (opts : K.ListOptions)
  | Get (ns : String) (name : String) (opts : K.GetOptions)
  | Create (ns : String) (obj : K.V1)
  | Update (ns : String) (obj : K.V1)
  | Delete (ns : String) (name : String) (opts : K.DeleteOptions)

/-- A remote write: a `Create` or an `Update` call. -/
def Call.isWrite {K : Kinds} : Call K → Bool
  | Call.Create _ _ => true
  | Call.Update _ _ => true
  | _ => false

/-- A remote `Update` call. -/
def Call.isUpdate {K : Kinds} : Call K → Bool
  | Call.Update _ _ => true
  | _ => false

/-- A remote `Create` call. -/
def Call.isCreate {K : Kinds} : Call K → Bool
  | Call.Create _ _ => true
  | _ => false

/-- The world outside the proxy: the state of the remote store and the log of
the calls made on the client so far, oldest first. -/
structure World (K : Kinds) where
  store : K.Store
  calls : List (Call K)

/-- The namespace-scoped typed client `hivev1client.SyncSetInstanceInterface`,
with the namespace as first argument.  Each operation reads the store and gives
its result with the next store. -/
structure SyncSetInstanceInterface (K : Kinds) where
  List : String → K.ListOptions → K.Store →
    Except GoError (SyncSetInstanceList K.V1 K.ListMeta) × K.Store
  Get : String → String → K.GetOptions → K.Store → Except GoError K.V1 × K.Store
  Create : String → K.V1 → K.Store → Except GoError K.V1 × K.Store
  Update : String → K.V1 → K.Store → Except GoError K.V1 × K.Store
  Delete : String → String → K.DeleteOptions → K.Store → Option GoError × K.Store

/-- The interface `rest.UpdatedObjectInfo`: given the old object it produces the
new desired object or an error. -/
structure UpdatedObjectInfo (K : Kinds) where
  UpdatedObject : Context → K.Api → Except GoError K.Api

/-- The function type `rest.ValidateObjectFunc`. -/
abbrev ValidateObjectFunc (K : Kinds) : Type := Context → K.Api → Option GoError

/-- The function type `rest.ValidateObjectUpdateFunc`. -/
abbrev ValidateObjectUpdateFunc (K : Kinds) : Type :=
  Context → K.Api → K.Api → Option GoError

/-- The proxy `REST` with its collaborators.  `client` is the field of the Go
struct.  The other fields are the package-level helpers the methods call and
the zero values they allocate; a conversion helper takes its input and the
previous content of its destination, and gives the new content of the
destination or an error. -/
structure REST (K : Kinds) where
  client : SyncSetInstanceInterface K
  /-- The helper `metainternal.Convert_internalversion_ListOptions_To_v1_ListOptions`. -/
  Convert_internalversion_ListOptions_To_v1_ListOptions :
    K.InternalListOptions → K.ListOptions → Except GoError K.ListOptions
  /-- The helper `util.SyncSetInstanceFromHiveV1(in, out)`. -/
  SyncSetInstanceFromHiveV1 : K.V1 → K.Api → Except GoError K.Api
  /-- The helper `util.SyncSetInstanceToHiveV1(in, out)`. -/
  SyncSetInstanceToHiveV1 : K.Api → K.V1 → Except GoError K.V1
  /-- The zero value `metav1.ListOptions{}`. -/
  emptyListOptions : K.ListOptions
  /-- The zero value `metav1.GetOptions{}`. -/
  emptyGetOptions : K.GetOptions
  /-- The zero value `hivev1.SyncSetInstance{}`. -/
  emptyV1 : K.V1
  /-- The zero value `hiveapi.SyncSetInstance{}`. -/
  emptyApi : K.Api

variable {K : Kinds}

/-- The conversion `FromPersisted` of the spec: `util.SyncSetInstanceFromHiveV1`
into a freshly allocated logical object, as every call site of the proxy
does. -/
def FromPersisted (s : REST K) (p : K.V1) : Except GoError K.Api :=
  s.SyncSetInstanceFromHiveV1 p s.emptyApi

/-- The conversion `ToPersisted` of the spec: `util.SyncSetInstanceToHiveV1`
into a freshly allocated persisted object, as `Create` does. -/
def ToPersisted (s : REST K) (x : K.Api) : Except GoError K.V1 :=
  s.SyncSetInstanceToHiveV1 x s.emptyV1

/-! ## Calls on the client: result, next store, and the call logged -/

/-- Remote `client.List(optv1)` on the sub-client of namespace `ns`. -/
def clientList (s : REST K) (ns : String) (opts : K.ListOptions) (w : World K) :
    Except GoError (SyncSetInstanceList K.V1 K.ListMeta) × World K :=
  let r := s.client.List ns opts w.store
  (r.1, { store := r.2, calls := w.calls ++ [Call.List ns opts] })

/-- Remote `client.Get(name, options)`. -/
def clientGet (s : REST K) (ns : String) (name : String) (opts : K.GetOptions)
    (w : World K) : Except GoError K.V1 × World K :=
  let r := s.client.Get ns name opts w.store
  (r.1, { store := r.2, calls := w.calls ++ [Call.Get ns name opts] })

/-- Remote `client.Create(obj)`. -/
def clientCreate (s : REST K) (ns : String) (obj : K.V1) (w : World K) :
    Except GoError K.V1 × World K :=
  let r := s.client.Create ns obj w.store
  (r.1, { store := r.2, calls := w.calls ++ [Call.Create ns obj] })

/-- Remote `client.Update(obj)`. -/
def clientUpdate (s : REST K) (ns : String) (obj : K.V1) (w : World K) :
    Except GoError K.V1 × World K :=
  let r := s.client.Update ns obj w.store
  (r.1, { store := r.2, calls := w.calls ++ [Call.Update ns obj] })

/-- Remote `client.Delete(name, options)`. -/
def clientDelete (s : REST K) (ns : String) (name : String) (opts : K.DeleteOptions)
    (w : World K) : Option GoError × World K :=
  let r := s.client.Delete ns name opts w.store
  (r.1, { store := r.2, calls := w.calls ++ [Call.Delete ns name opts] })

/-! ## The proxy -/

/-- The method `REST.getClient`: the namespace of the context selects the
sub-client (represented by its namespace); without a namespace it is a
bad-request error and the client is not touched. -/
def REST.getClient (_s : REST K) (ctx : Context) (w : World K) :
    Except GoError String × World K :=
  match NamespaceFrom ctx with
  | (_, false) => (Except.error (NewBadRequest "namespace parameter required"), w)
  | (ns, true) =>
    (Except.ok ns, { store := w.store, calls := w.calls ++ [Call.SyncSetInstances ns] })

/-- The loop of `REST.List` over the remote items: each item is converted into
the zero-valued slot of the result, in order, and the first failure ends the
loop with its error. -/
def convertItems (s : REST K) : List K.V1 → Except GoError (List K.Api)
  | [] => Except.ok []
  | curr :: rest =>
    match s.SyncSetInstanceFromHiveV1 curr s.emptyApi with
    | Except.error err => Except.error err
    | Except.ok item =>
      match convertItems s rest with
      | Except.error err => Except.error err
      | Except.ok items => Except.ok (item :: items)

/-- The method `REST.List`.  The result is the Go pair (object, error). -/
def REST.List (s : REST K) (ctx : Context) (options : K.InternalListOptions)
    (w : World K) :
    (Option (SyncSetInstanceList K.Api K.ListMeta) × Option GoError) × World K :=
  match s.getClient ctx w with
  | (Except.error err, w) => ((none, some err), w)
  | (Except.ok client, w) =>
    match s.Convert_internalversion_ListOptions_To_v1_ListOptions options
        s.emptyListOptions with
    | Except.error err => ((none, some err), w)
    | Except.ok optv1 =>
      match clientList s client optv1 w with
      | (Except.error err, w) => ((none, some err), w)
      | (Except.ok syncSetInstances, w) =>
        match convertItems s syncSetInstances.Items with
        | Except.error err => ((none, some err), w)
        | Except.ok items =>
          ((some { ListMeta := syncSetInstances.ListMeta, Items := items }, none), w)

/-- The method `REST.Get`.  The options pointer is dereferenced in the source, so
it is taken as a value here. -/
def REST.Get (s : REST K) (ctx : Context) (name : String) (options : K.GetOptions)
    (w : World K) : (Option K.Api × Option GoError) × World K :=
  match s.getClient ctx w with
  | (Except.error err, w) => ((none, some err), w)
  | (Except.ok client, w) =>
    match clientGet s client name options w with
    | (Except.error err, w) => ((none, some err), w)
    | (Except.ok ret, w) =>
      match s.SyncSetInstanceFromHiveV1 ret s.emptyApi with
      | Except.error err => ((none, some err), w)
      | Except.ok syncSetInstance => ((some syncSetInstance, none), w)

/-- The method `REST.Delete`.  The result is the Go triple (object, deleted
immediately, error). -/
def REST.Delete (s : REST K) (ctx : Context) (name : String)
    (options : K.DeleteOptions) (w : World K) :
    (Option Status × Bool × Option GoError) × World K :=
  match s.getClient ctx w with
  | (Except.error err, w) => ((none, false, some err), w)
  | (Except.ok client, w) =>
    match clientDelete s client name options w with
    | (some err, w) => ((none, false, some err), w)
    | (none, w) => ((some { Status := StatusSuccess }, true, none), w)

/-- The method `REST.Create`.  The validation function is an unnamed parameter
in the source and the options are never read.  The object is typed as the
logical representation, the type the source asserts it to have. -/
def REST.Create (s : REST K) (ctx : Context) (obj : K.Api)
    (_validate : ValidateObjectFunc K) (_options : K.CreateOptions) (w : World K) :
    (Option K.Api × Option GoError) × World K :=
  match s.getClient ctx w with
  | (Except.error err, w) => ((none, some err), w)
  | (Except.ok client, w) =>
    match s.SyncSetInstanceToHiveV1 obj s.emptyV1 with
    | Except.error err => ((none, some err), w)
    | Except.ok convertedObj =>
      match clientCreate s client convertedObj w with
      | (Except.error err, w) => ((none, some err), w)
      | (Except.ok ret, w) =>
        match s.SyncSetInstanceFromHiveV1 ret s.emptyApi with
        | Except.error err => ((none, some err), w)
        | Except.ok syncSetInstance => ((some syncSetInstance, none), w)

/-- The method `REST.Update`.  The new object is converted into the fetched
persisted object, which is then sent.  The two validation functions are unnamed
parameters in the source; forceAllowCreate and the options are never read.  The
result is the Go triple (object, created, error). -/
def REST.Update (s : REST K) (ctx : Context) (name : String)
    (objInfo : UpdatedObjectInfo K) (_validate : ValidateObjectFunc K)
    (_validateUpdate : ValidateObjectUpdateFunc K) (_forceAllowCreate : Bool)
    (_options : K.UpdateOptions) (w : World K) :
    (Option K.Api × Bool × Option GoError) × World K :=
  match s.getClient ctx w with
  | (Except.error err, w) => ((none, false, some err), w)
  | (Except.ok client, w) =>
    match clientGet s client name s.emptyGetOptions w with
    | (Except.error err, w) => ((none, false, some err), w)
    | (Except.ok syncSetInstance, w) =>
      match s.SyncSetInstanceFromHiveV1 syncSetInstance s.emptyApi with
      | Except.error err => ((none, false, some err), w)
      | Except.ok old =>
        match objInfo.UpdatedObject ctx old with
        | Except.error err => ((none, false, some err), w)
        | Except.ok obj =>
          match s.SyncSetInstanceToHiveV1 obj syncSetInstance with
          | Except.error err => ((none, false, some err), w)
          | Except.ok syncSetInstance =>
            match clientUpdate s client syncSetInstance w with
            | (Except.error err, w) => ((none, false, some err), w)
            | (Except.ok ret, w) =>
              match s.SyncSetInstanceFromHiveV1 ret s.emptyApi with
              | Except.error err => ((none, false, some err), w)
              | Except.ok new => ((some new, false, none), w)

/-! ## A concrete instance

A small in-memory store used to evaluate the definitions: objects are a name
with a payload, the store is an association list, and the conversions reject
one payload each. -/

/-- Concrete kinds: the store maps names to payloads, both representations are
a name with a payload, options are numbers. -/
@[reducible]
def demoKinds : Kinds where
  Store := List (String × Nat)
  V1 := String × Nat
  Api := String × Nat
  ListMeta := String
  InternalListOptions := Nat
  ListOptions := Nat
  GetOptions := Nat
  DeleteOptions := Nat
  CreateOptions := Nat
  UpdateOptions := Nat

/-- The not-found error the in-memory client reports for an absent name: a
status error with reason NotFound and HTTP code 404. -/
def NewNotFound (name : String) : GoError :=
  GoError.status StatusReason.NotFound 404 name

/-- An in-memory client: not-found for absent names, already-exists on a second
create; the namespace is not looked at. -/
def demoClient : SyncSetInstanceInterface demoKinds where
  List := fun _ _ st => (Except.ok { ListMeta := "rv1", Items := st }, st)
  Get := fun _ name _ st =>
    match st.lookup name with
    | some v => (Except.ok (name, v), st)
    | none => (Except.error (NewNotFound name), st)
  Create := fun _ obj st =>
    match st.lookup obj.1 with
    | some _ => (Except.error (GoError.status StatusReason.AlreadyExists 409 obj.1), st)
    | none => (Except.ok obj, st ++ [obj])
  Update := fun _ obj st =>
    match st.lookup obj.1 with
    | some _ => (Except.ok obj, (st.filter (fun kv => kv.1 != obj.1)) ++ [obj])
    | none => (Except.error (NewNotFound obj.1), st)
  Delete := fun _ name _ st =>
    match st.lookup name with
    | some _ => (none, st.filter (fun kv => kv.1 != name))
    | none => (some (NewNotFound name), st)

/-- A proxy over the in-memory client.  Converting to the persisted form fails
on payload 13, converting from it fails on payload 66, list options above 9 do
not convert. -/
def demoREST : REST demoKinds where
  client := demoClient
  Convert_internalversion_ListOptions_To_v1_ListOptions := fun o _ =>
    if o < 10 then Except.ok (o + 1) else Except.error (GoError.other "bad list options")
  SyncSetInstanceFromHiveV1 := fun p _ =>
    if p.2 = 66 then Except.error (GoError.other "cannot convert from v1") else Except.ok p
  SyncSetInstanceToHiveV1 := fun x _ =>
    if x.2 = 13 then Except.error (GoError.other "cannot convert to v1") else Except.ok x
  emptyListOptions := 0
  emptyGetOptions := 0
  emptyV1 := ("", 0)
  emptyApi := ("", 0)

/-- A context carrying the namespace "ns1". -/
def demoCtx : Context := { ns := some "ns1" }

/-- A world whose store holds three objects and whose call log is empty. -/
def demoWorld : World demoKinds :=
  { store := [("a", 1), ("b", 13), ("c", 66)], calls := [] }

/-- An update function that returns the old object unchanged. -/
def keepObject : UpdatedObjectInfo demoKinds where
  UpdatedObject := fun _ old => Except.ok old

/-- An update function that always fails with a conflict. -/
def conflictObject : UpdatedObjectInfo demoKinds where
  UpdatedObject := fun _ _ => Except.error (GoError.status StatusReason.Conflict 409 "conflict")

/-- An update function that ignores the old object and returns a fixed one. -/
def replaceWith (x : String × Nat) : UpdatedObjectInfo demoKinds where
  UpdatedObject := fun _ _ => Except.ok x

/-- A validation function that accepts everything. -/
def acceptAll : ValidateObjectFunc demoKinds := fun _ _ => none

/-- A validation function that rejects everything. -/
def rejectAll : ValidateObjectFunc demoKinds := fun _ _ => some (GoError.other "rejected")

/-- An update validation function that accepts everything. -/
def acceptAllUpdates : ValidateObjectUpdateFunc demoKinds := fun _ _ _ => none

/-! ## Helper lemmas -/

theorem getClient_none (s : REST K) {ctx : Context} (hns : ctx.ns = none) (w : World K) :
    s.getClient ctx w = (Except.error (NewBadRequest "namespace parameter required"), w) := by
  simp [REST.getClient, NamespaceFrom, hns]

theorem getClient_some (s : REST K) {ctx : Context} {ns : String} (hns : ctx.ns = some ns)
    (w : World K) :
    s.getClient ctx w =
      (Except.ok ns, { store := w.store, calls := w.calls ++ [Call.SyncSetInstances ns] }) := by
  simp [REST.getClient, NamespaceFrom, hns]

/-! ### The loop over the remote items -/

theorem convertItems_ok_of_forall (s : REST K) :
    ∀ ps : List K.V1, (∀ p ∈ ps, ∃ x, FromPersisted s p = Except.ok x) →
      ∃ xs, convertItems s ps = Except.ok xs ∧ xs.length = ps.length ∧
        ∀ i : Nat, i < ps.length →
          ∃ p x, ps[i]? = some p ∧ xs[i]? = some x ∧ FromPersisted s p = Except.ok x := by
  intro ps
  induction ps with
  | nil =>
    intro _
    exact ⟨[], rfl, rfl, fun i hi => absurd hi (Nat.not_lt_zero i)⟩
  | cons p rest ih =>
    intro h
    obtain ⟨x, hx⟩ := h p (List.mem_cons_self p rest)
    obtain ⟨xs, hxs, hlen, hidx⟩ := ih (fun q hq => h q (List.mem_cons_of_mem p hq))
    have hx2 : s.SyncSetInstanceFromHiveV1 p s.emptyApi = Except.ok x := hx
    refine ⟨x :: xs, ?_, ?_, ?_⟩
    · simp [convertItems, hx2, hxs]
    · simp [hlen]
    · intro i hi
      cases i with
      | zero => exact ⟨p, x, by simp, by simp, hx⟩
      | succ j =>
        have hj : j < rest.length := by simpa using hi
        obtain ⟨q, y, hq, hy, hqy⟩ := hidx j hj
        exact ⟨q, y, by simpa using hq, by simpa using hy, hqy⟩

theorem convertItems_error_first (s : REST K) :
    ∀ ps : List K.V1, (∃ p ∈ ps, ∃ e, FromPersisted s p = Except.error e) →
      ∃ (i : Nat) (p : K.V1) (e : GoError),
        ps[i]? = some p ∧ FromPersisted s p = Except.error e ∧
        (∀ j : Nat, j < i → ∃ q x, ps[j]? = some q ∧ FromPersisted s q = Except.ok x) ∧
        convertItems s ps = Except.error e := by
  intro ps
  induction ps with
  | nil =>
    rintro ⟨p, hp, _⟩
    exact absurd hp (List.not_mem_nil p)
  | cons p rest ih =>
    rintro ⟨q, hq, e, he⟩
    cases hp : FromPersisted s p with
    | error e0 =>
      have hp2 : s.SyncSetInstanceFromHiveV1 p s.emptyApi = Except.error e0 := hp
      refine ⟨0, p, e0, by simp, hp, ?_, ?_⟩
      · intro j hj
        exact absurd hj (Nat.not_lt_zero j)
      · simp [convertItems, hp2]
    | ok x =>
      have hp2 : s.SyncSetInstanceFromHiveV1 p s.emptyApi = Except.ok x := hp
      have hrest : ∃ q ∈ rest, ∃ e, FromPersisted s q = Except.error e := by
        rcases List.mem_cons.mp hq with hqp | hqr
        · subst hqp
          rw [hp] at he
          cases he
        · exact ⟨q, hqr, e, he⟩
      obtain ⟨i, r, e1, hr, her, hbefore, hconv⟩ := ih hrest
      refine ⟨i + 1, r, e1, by simpa using hr, her, ?_, ?_⟩
      · intro j hj
        cases j with
        | zero => exact ⟨p, x, by simp, hp⟩
        | succ k =>
          obtain ⟨y, z, hy, hz⟩ := hbefore k (by omega)
          exact ⟨y, z, by simpa using hy, hz⟩
      · simp [convertItems, hp2, hconv]

/-! ### The paths of Update -/

section UpdatePaths

variable (s : REST K) {ctx : Context} {ns : String} (name : String)
  (objInfo : UpdatedObjectInfo K) (validate : ValidateObjectFunc K)
  (validateUpdate : ValidateObjectUpdateFunc K) (forceAllowCreate : Bool)
  (options : K.UpdateOptions) (w : World K)

theorem update_get_error (hns : ctx.ns = some ns) {e : GoError}
    (hget : (s.client.Get ns name s.emptyGetOptions w.store).1 = Except.error e) :
    s.Update ctx name objInfo validate validateUpdate forceAllowCreate options w =
      ((none, false, some e),
        { store := (s.client.Get ns name s.emptyGetOptions w.store).2,
          calls := w.calls ++
            [Call.SyncSetInstances ns, Call.Get ns name s.emptyGetOptions] }) := by
  simp [REST.Update, getClient_some s hns, clientGet, hget]

theorem update_from_error (hns : ctx.ns = some ns) {P : K.V1} {st : K.Store} {e : GoError}
    (hget : s.client.Get ns name s.emptyGetOptions w.store = (Except.ok P, st))
    (hfrom : FromPersisted s P = Except.error e) :
    s.Update ctx name objInfo validate validateUpdate forceAllowCreate options w =
      ((none, false, some e),
        { store := st,
          calls := w.calls ++
            [Call.SyncSetInstances ns, Call.Get ns name s.emptyGetOptions] }) := by
  simp only [FromPersisted] at hfrom
  simp [REST.Update, getClient_some s hns, clientGet, hget, hfrom]

theorem update_fn_error (hns : ctx.ns = some ns) {P : K.V1} {st : K.Store} {old : K.Api}
    {e : GoError}
    (hget : s.client.Get ns name s.emptyGetOptions w.store = (Except.ok P, st))
    (hfrom : FromPersisted s P = Except.ok old)
    (hupd : objInfo.UpdatedObject ctx old = Except.error e) :
    s.Update ctx name objInfo validate validateUpdate forceAllowCreate options w =
      ((none, false, some e),
        { store := st,
          calls := w.calls ++
            [Call.SyncSetInstances ns, Call.Get ns name s.emptyGetOptions] }) := by
  simp only [FromPersisted] at hfrom
  simp [REST.Update, getClient_some s hns, clientGet, hget, hfrom, hupd]

theorem update_to_error (hns : ctx.ns = some ns) {P : K.V1} {st : K.Store} {old obj : K.Api}
    {e : GoError}
    (hget : s.client.Get ns name s.emptyGetOptions w.store = (Except.ok P, st))
    (hfrom : FromPersisted s P = Except.ok old)
    (hupd : objInfo.UpdatedObject ctx old = Except.ok obj)
    (hto : s.SyncSetInstanceToHiveV1 obj P = Except.error e) :
    s.Update ctx name objInfo validate validateUpdate forceAllowCreate options w =
      ((none, false, some e),
        { store := st,
          calls := w.calls ++
            [Call.SyncSetInstances ns, Call.Get ns name s.emptyGetOptions] }) := by
  simp only [FromPersisted] at hfrom
  simp [REST.Update, getClient_some s hns, clientGet, hget, hfrom, hupd, hto]

theorem update_remote_error (hns : ctx.ns = some ns) {P q : K.V1} {st : K.Store}
    {old obj : K.Api} {e : GoError}
    (hget : s.client.Get ns name s.emptyGetOptions w.store = (Except.ok P, st))
    (hfrom : FromPersisted s P = Except.ok old)
    (hupd : objInfo.UpdatedObject ctx old = Except.ok obj)
    (hto : s.SyncSetInstanceToHiveV1 obj P = Except.ok q)
    (hremote : (s.client.Update ns q st).1 = Except.error e) :
    s.Update ctx name objInfo validate validateUpdate forceAllowCreate options w =
      ((none, false, some e),
        { store := (s.client.Update ns q st).2,
          calls := w.calls ++
            [Call.SyncSetInstances ns, Call.Get ns name s.emptyGetOptions,
              Call.Update ns q] }) := by
  simp only [FromPersisted] at hfrom
  simp [REST.Update, getClient_some s hns, clientGet, clientUpdate, hget, hfrom, hupd, hto,
    hremote]

theorem update_response_error (hns : ctx.ns = some ns) {P q r : K.V1} {st : K.Store}
    {old obj : K.Api} {e : GoError}
    (hget : s.client.Get ns name s.emptyGetOptions w.store = (Except.ok P, st))
    (hfrom : FromPersisted s P = Except.ok old)
    (hupd : objInfo.UpdatedObject ctx old = Except.ok obj)
    (hto : s.SyncSetInstanceToHiveV1 obj P = Except.ok q)
    (hremote : (s.client.Update ns q st).1 = Except.ok r)
    (hback : FromPersisted s r = Except.error e) :
    s.Update ctx name objInfo validate validateUpdate forceAllowCreate options w =
      ((none, false, some e),
        { store := (s.client.Update ns q st).2,
          calls := w.calls ++
            [Call.SyncSetInstances ns, Call.Get ns name s.emptyGetOptions,
              Call.Update ns q] }) := by
  simp only [FromPersisted] at hfrom hback
  simp [REST.Update, getClient_some s hns, clientGet, clientUpdate, hget, hfrom, hupd, hto,
    hremote, hback]

theorem update_ok (hns : ctx.ns = some ns) {P q r : K.V1} {st : K.Store}
    {old obj new : K.Api}
    (hget : s.client.Get ns name s.emptyGetOptions w.store = (Except.ok P, st))
    (hfrom : FromPersisted s P = Except.ok old)
    (hupd : objInfo.UpdatedObject ctx old = Except.ok obj)
    (hto : s.SyncSetInstanceToHiveV1 obj P = Except.ok q)
    (hremote : (s.client.Update ns q st).1 = Except.ok r)
    (hback : FromPersisted s r = Except.ok new) :
    s.Update ctx name objInfo validate validateUpdate forceAllowCreate options w =
      ((some new, false, none),
        { store := (s.client.Update ns q st).2,
          calls := w.calls ++
            [Call.SyncSetInstances ns, Call.Get ns name s.emptyGetOptions,
              Call.Update ns q] }) := by
  simp only [FromPersisted] at hfrom hback
  simp [REST.Update, getClient_some s hns, clientGet, clientUpdate, hget, hfrom, hupd, hto,
    hremote, hback]

end UpdatePaths

theorem update_shape (s : REST K) (ctx : Context) (name : String)
    (objInfo : UpdatedObjectInfo K) (validate : ValidateObjectFunc K)
    (validateUpdate : ValidateObjectUpdateFunc K) (forceAllowCreate : Bool)
    (options : K.UpdateOptions) (w : World K) :
    ∃ new : List (Call K),
      (s.Update ctx name objInfo validate validateUpdate forceAllowCreate options w).2.calls =
        w.calls ++ new ∧
      (s.Update ctx name objInfo validate validateUpdate forceAllowCreate options w).1.2.1 =
        false ∧
      (new = [] ∨
        (∃ ns, new = [Call.SyncSetInstances ns, Call.Get ns name s.emptyGetOptions]) ∨
        (∃ ns q, new = [Call.SyncSetInstances ns, Call.Get ns name s.emptyGetOptions,
          Call.Update ns q])) := by
  cases hctx : ctx.ns with
  | none =>
    refine ⟨[], ?_, ?_, Or.inl rfl⟩ <;> simp [REST.Update, getClient_none s hctx]
  | some ns =>
    rcases hget : s.client.Get ns name s.emptyGetOptions w.store with ⟨r, st⟩
    cases r with
    | error e =>
      rw [update_get_error s name objInfo validate validateUpdate forceAllowCreate options w
        hctx (by rw [hget])]
      exact ⟨_, rfl, rfl, Or.inr (Or.inl ⟨ns, rfl⟩)⟩
    | ok P =>
      cases hfrom : FromPersisted s P with
      | error e =>
        rw [update_from_error s name objInfo validate validateUpdate forceAllowCreate options w
          hctx hget hfrom]
        exact ⟨_, rfl, rfl, Or.inr (Or.inl ⟨ns, rfl⟩)⟩
      | ok old =>
        cases hupd : objInfo.UpdatedObject ctx old with
        | error e =>
          rw [update_fn_error s name objInfo validate validateUpdate forceAllowCreate options w
            hctx hget hfrom hupd]
          exact ⟨_, rfl, rfl, Or.inr (Or.inl ⟨ns, rfl⟩)⟩
        | ok obj =>
          cases hto : s.SyncSetInstanceToHiveV1 obj P with
          | error e =>
            rw [update_to_error s name objInfo validate validateUpdate forceAllowCreate options
              w hctx hget hfrom hupd hto]
            exact ⟨_, rfl, rfl, Or.inr (Or.inl ⟨ns, rfl⟩)⟩
          | ok q =>
            cases hremote : (s.client.Update ns q st).1 with
            | error e =>
              rw [update_remote_error s name objInfo validate validateUpdate forceAllowCreate
                options w hctx hget hfrom hupd hto hremote]
              exact ⟨_, rfl, rfl, Or.inr (Or.inr ⟨ns, q, rfl⟩)⟩
            | ok r =>
              cases hback : FromPersisted s r with
              | error e =>
                rw [update_response_error s name objInfo validate validateUpdate
                  forceAllowCreate options w hctx hget hfrom hupd hto hremote hback]
                exact ⟨_, rfl, rfl, Or.inr (Or.inr ⟨ns, q, rfl⟩)⟩
              | ok new =>
                rw [update_ok s name objInfo validate validateUpdate forceAllowCreate options w
                  hctx hget hfrom hupd hto hremote hback]
                exact ⟨_, rfl, rfl, Or.inr (Or.inr ⟨ns, q, rfl⟩)⟩

/-! ## Missing namespace -/

/-- C1: when the call context carries no namespace, each of List, Get, Create,
Update and Delete returns the bad-request error "namespace parameter required"
with a nil object (and a false flag for Update and Delete), and the world is
left as it was: the call log gains no entry, not even the request for the
namespace-scoped sub-client, and the store is untouched. -/
theorem namespace_required (s : REST K) (ctx : Context) (hns : ctx.ns = none) (w : World K) :
    (∀ options, s.List ctx options w =
      ((none, some (NewBadRequest "namespace parameter required")), w)) ∧
    (∀ name options, s.Get ctx name options w =
      ((none, some (NewBadRequest "namespace parameter required")), w)) ∧
    (∀ obj validate options, s.Create ctx obj validate options w =
      ((none, some (NewBadRequest "namespace parameter required")), w)) ∧
    (∀ name objInfo validate validateUpdate forceAllowCreate options,
      s.Update ctx name objInfo validate validateUpdate forceAllowCreate options w =
        ((none, false, some (NewBadRequest "namespace parameter required")), w)) ∧
    (∀ name options, s.Delete ctx name options w =
      ((none, false, some (NewBadRequest "namespace parameter required")), w)) := by
  refine ⟨?_, ?_, ?_, ?_, ?_⟩
  · intro options
    simp [REST.List, getClient_none s hns]
  · intro name options
    simp [REST.Get, getClient_none s hns]
  · intro obj validate options
    simp [REST.Create, getClient_none s hns]
  · intro name objInfo validate validateUpdate forceAllowCreate options
    simp [REST.Update, getClient_none s hns]
  · intro name options
    simp [REST.Delete, getClient_none s hns]

/-- Witness of C1 on the in-memory instance: an update without namespace. -/
theorem namespace_required_witness :
    demoREST.Update { ns := none } "a" keepObject acceptAll acceptAllUpdates true 0 demoWorld =
      ((none, false, some (NewBadRequest "namespace parameter required")), demoWorld) :=
  (namespace_required demoREST { ns := none } rfl demoWorld).2.2.2.1
    "a" keepObject acceptAll acceptAllUpdates true 0

/-! ## Delete -/

/-- C7: with a namespace present, Delete makes exactly one remote Delete call,
with the given name and options (after obtaining the sub-client).  When the
remote delete succeeds the result is a Status object with status Success, the
flag true and no error; when it fails with an error the result is a nil object,
the flag false and that same error.  The flag is true exactly when the remote
delete succeeded. -/
theorem delete_contract (s : REST K) (ctx : Context) (ns : String) (hns : ctx.ns = some ns)
    (name : String) (options : K.DeleteOptions) (w : World K) :
    (s.Delete ctx name options w).2.calls =
        w.calls ++ [Call.SyncSetInstances ns, Call.Delete ns name options] ∧
    (s.Delete ctx name options w).2.store = (s.client.Delete ns name options w.store).2 ∧
    ((s.client.Delete ns name options w.store).1 = none →
      (s.Delete ctx name options w).1 = (some { Status := StatusSuccess }, true, none)) ∧
    (∀ e, (s.client.Delete ns name options w.store).1 = some e →
      (s.Delete ctx name options w).1 = (none, false, some e)) ∧
    ((s.Delete ctx name options w).1.2.1 = true ↔
      (s.client.Delete ns name options w.store).1 = none) := by
  cases h : (s.client.Delete ns name options w.store).1 <;>
    simp [REST.Delete, getClient_some s hns, clientDelete, h]

/-- Witness of C7 on the in-memory instance: deleting a stored object and
deleting an absent one. -/
theorem delete_contract_witness :
    (demoREST.Delete demoCtx "a" 5 demoWorld).1 = (some { Status := "Success" }, true, none) ∧
    (demoREST.Delete demoCtx "zz" 5 demoWorld).1 = (none, false, some (NewNotFound "zz")) ∧
    (demoREST.Delete demoCtx "a" 5 demoWorld).2.calls =
      [Call.SyncSetInstances "ns1", Call.Delete "ns1" "a" 5] :=
  ⟨(delete_contract demoREST demoCtx "ns1" rfl "a" 5 demoWorld).2.2.1 rfl,
   (delete_contract demoREST demoCtx "ns1" rfl "zz" 5 demoWorld).2.2.2.1 _ rfl,
   (delete_contract demoREST demoCtx "ns1" rfl "a" 5 demoWorld).1⟩

/-! ## Create -/

/-- C8: with a namespace present, if converting the supplied object x to the
persisted form gives p, the remote create of p returns r and converting r back
gives y, then Create returns y without error and the client received exactly
one Create call, carrying p (after the request for the sub-client).  If
converting x fails, Create returns that error with a nil object and no remote
Create call is made.  The result never depends on the validation function: it
is not invoked. -/
theorem create_contract (s : REST K) (ctx : Context) (ns : String) (hns : ctx.ns = some ns)
    (x : K.Api) (validate : ValidateObjectFunc K) (options : K.CreateOptions) (w : World K) :
    (∀ p r st y, ToPersisted s x = Except.ok p →
      s.client.Create ns p w.store = (Except.ok r, st) →
      FromPersisted s r = Except.ok y →
      s.Create ctx x validate options w =
        ((some y, none),
          { store := st, calls := w.calls ++ [Call.SyncSetInstances ns, Call.Create ns p] })) ∧
    (∀ e, ToPersisted s x = Except.error e →
      s.Create ctx x validate options w =
        ((none, some e),
          { store := w.store, calls := w.calls ++ [Call.SyncSetInstances ns] })) ∧
    (∀ validate2 : ValidateObjectFunc K,
      s.Create ctx x validate2 options w = s.Create ctx x validate options w) := by
  refine ⟨?_, ?_, ?_⟩
  · intro p r st y hto hcreate hfrom
    simp only [ToPersisted] at hto
    simp only [FromPersisted] at hfrom
    simp [REST.Create, getClient_some s hns, clientCreate, hto, hcreate, hfrom]
  · intro e hto
    simp only [ToPersisted] at hto
    simp [REST.Create, getClient_some s hns, hto]
  · intro validate2
    rfl

/-- Witness of C8 on the in-memory instance: a successful create whose validation
function rejects everything, and a create whose object does not convert. -/
theorem create_contract_witness :
    demoREST.Create demoCtx ("d", 4) rejectAll 0 demoWorld =
      ((some ("d", 4), none),
        { store := [("a", 1), ("b", 13), ("c", 66), ("d", 4)],
          calls := [Call.SyncSetInstances "ns1", Call.Create "ns1" ("d", 4)] }) ∧
    demoREST.Create demoCtx ("d", 13) rejectAll 0 demoWorld =
      ((none, some (GoError.other "cannot convert to v1")),
        { store := demoWorld.store, calls := [Call.SyncSetInstances "ns1"] }) :=
  ⟨(create_contract demoREST demoCtx "ns1" rfl ("d", 4) rejectAll 0 demoWorld).1
      ("d", 4) ("d", 4) _ ("d", 4) rfl rfl rfl,
   (create_contract demoREST demoCtx "ns1" rfl ("d", 13) rejectAll 0 demoWorld).2.1 _ rfl⟩

/-! ## List -/

/-- C2: with a namespace present, if the list options convert, the remote List
returns a list L of N items and every item of L converts, then List returns,
without error, a list of exactly N items whose i-th item is the conversion of
the i-th item of L for every i below N, and whose list metadata is that of L. -/
theorem list_contract (s : REST K) (ctx : Context) (ns : String) (hns : ctx.ns = some ns)
    (options : K.InternalListOptions) (optv1 : K.ListOptions)
    (L : SyncSetInstanceList K.V1 K.ListMeta) (st : K.Store) (w : World K)
    (hopt : s.Convert_internalversion_ListOptions_To_v1_ListOptions options
      s.emptyListOptions = Except.ok optv1)
    (hlist : s.client.List ns optv1 w.store = (Except.ok L, st))
    (hconv : ∀ p ∈ L.Items, ∃ x, FromPersisted s p = Except.ok x) :
    ∃ ret : SyncSetInstanceList K.Api K.ListMeta,
      (s.List ctx options w).1 = (some ret, none) ∧
      ret.Items.length = L.Items.length ∧
      (∀ i : Nat, i < L.Items.length →
        ∃ p x, L.Items[i]? = some p ∧ ret.Items[i]? = some x ∧
          FromPersisted s p = Except.ok x) ∧
      ret.ListMeta = L.ListMeta := by
  obtain ⟨xs, hxs, hlen, hidx⟩ := convertItems_ok_of_forall s L.Items hconv
  refine ⟨{ ListMeta := L.ListMeta, Items := xs }, ?_, hlen, hidx, rfl⟩
  simp [REST.List, getClient_some s hns, clientList, hopt, hlist, hxs]

/-- Witness of C2 on the in-memory instance: a store of two convertible
objects. -/
theorem list_contract_witness :
    ∃ ret : SyncSetInstanceList (String × Nat) String,
      (demoREST.List demoCtx 3 { store := [("a", 1), ("b", 13)], calls := [] }).1 =
        (some ret, none) ∧
      ret.Items.length = 2 ∧
      (∀ i : Nat, i < 2 →
        ∃ p x, [("a", 1), ("b", 13)][i]? = some p ∧ ret.Items[i]? = some x ∧
          FromPersisted demoREST p = Except.ok x) ∧
      ret.ListMeta = "rv1" :=
  list_contract demoREST demoCtx "ns1" rfl 3 4
    { ListMeta := "rv1", Items := [("a", 1), ("b", 13)] } [("a", 1), ("b", 13)]
    { store := [("a", 1), ("b", 13)], calls := [] } rfl rfl
    (by
      intro p hp
      have hcases : p = ("a", 1) ∨ p = ("b", 13) := by simpa using hp
      rcases hcases with h | h
      · exact ⟨("a", 1), by rw [h]; rfl⟩
      · exact ⟨("b", 13), by rw [h]; rfl⟩)

/-- C9: with a namespace present, if the list options convert and the remote
List returns L but at least one item of L does not convert, then List returns a
nil result with the conversion error of the lowest-indexed failing item (every
item before it converts); no list of the items that did convert is returned.
If the list options do not convert, List returns that error with a nil result
and makes no remote List call: the log only gains the request for the
sub-client and the store is untouched. -/
theorem list_failure (s : REST K) (ctx : Context) (ns : String) (hns : ctx.ns = some ns)
    (options : K.InternalListOptions) (w : World K) :
    (∀ optv1 L st,
      s.Convert_internalversion_ListOptions_To_v1_ListOptions options s.emptyListOptions =
        Except.ok optv1 →
      s.client.List ns optv1 w.store = (Except.ok L, st) →
      (∃ p ∈ L.Items, ∃ e, FromPersisted s p = Except.error e) →
      ∃ (i : Nat) (p : K.V1) (e : GoError),
        L.Items[i]? = some p ∧ FromPersisted s p = Except.error e ∧
        (∀ j : Nat, j < i → ∃ q x, L.Items[j]? = some q ∧ FromPersisted s q = Except.ok x) ∧
        (s.List ctx options w).1 = (none, some e)) ∧
    (∀ e,
      s.Convert_internalversion_ListOptions_To_v1_ListOptions options s.emptyListOptions =
        Except.error e →
      s.List ctx options w =
        ((none, some e),
          { store := w.store, calls := w.calls ++ [Call.SyncSetInstances ns] })) := by
  refine ⟨?_, ?_⟩
  · intro optv1 L st hopt hlist hfail
    obtain ⟨i, p, e, hp, he, hbefore, hconv⟩ := convertItems_error_first s L.Items hfail
    refine ⟨i, p, e, hp, he, hbefore, ?_⟩
    simp [REST.List, getClient_some s hns, clientList, hopt, hlist, hconv]
  · intro e hopt
    simp [REST.List, getClient_some s hns, hopt]

/-- Witness of C9 on the in-memory instance: the third stored object does not
convert, and list options 10 do not convert. -/
theorem list_failure_witness :
    (∃ (i : Nat) (p : String × Nat) (e : GoError),
      [("a", 1), ("b", 13), ("c", 66)][i]? = some p ∧
      FromPersisted demoREST p = Except.error e ∧
      (∀ j : Nat, j < i →
        ∃ q x, [("a", 1), ("b", 13), ("c", 66)][j]? = some q ∧
          FromPersisted demoREST q = Except.ok x) ∧
      (demoREST.List demoCtx 3 demoWorld).1 = (none, some e)) ∧
    demoREST.List demoCtx 10 demoWorld =
      ((none, some (GoError.other "bad list options")),
        { store := demoWorld.store, calls := [Call.SyncSetInstances "ns1"] }) :=
  ⟨(list_failure demoREST demoCtx "ns1" rfl 3 demoWorld).1 4
      { ListMeta := "rv1", Items := [("a", 1), ("b", 13), ("c", 66)] } demoWorld.store rfl rfl
      ⟨("c", 66), by decide, GoError.other "cannot convert from v1", rfl⟩,
   (list_failure demoREST demoCtx "ns1" rfl 10 demoWorld).2 _ rfl⟩

/-! ## Remote errors -/

/-- C3: with a namespace present, whenever the remote call an operation issues
fails with error e (the remote List of List, the remote Get of Get, the remote
Create of Create, the remote Get or the remote Update of Update, the remote
Delete of Delete), the operation returns exactly e, the same error value, with
a nil object (and a false flag for Update and Delete).  In particular a Get
whose remote Get reports not-found returns that not-found error. -/
theorem remote_error_unchanged (s : REST K) (ctx : Context) (ns : String)
    (hns : ctx.ns = some ns) (w : World K) (e : GoError) :
    (∀ options optv1,
      s.Convert_internalversion_ListOptions_To_v1_ListOptions options s.emptyListOptions =
        Except.ok optv1 →
      (s.client.List ns optv1 w.store).1 = Except.error e →
      (s.List ctx options w).1 = (none, some e)) ∧
    (∀ name options,
      (s.client.Get ns name options w.store).1 = Except.error e →
      (s.Get ctx name options w).1 = (none, some e)) ∧
    (∀ obj validate options p,
      ToPersisted s obj = Except.ok p →
      (s.client.Create ns p w.store).1 = Except.error e →
      (s.Create ctx obj validate options w).1 = (none, some e)) ∧
    (∀ name objInfo validate validateUpdate forceAllowCreate options,
      (s.client.Get ns name s.emptyGetOptions w.store).1 = Except.error e →
      (s.Update ctx name objInfo validate validateUpdate forceAllowCreate options w).1 =
        (none, false, some e)) ∧
    (∀ name objInfo validate validateUpdate forceAllowCreate options P st old obj q,
      s.client.Get ns name s.emptyGetOptions w.store = (Except.ok P, st) →
      FromPersisted s P = Except.ok old →
      objInfo.UpdatedObject ctx old = Except.ok obj →
      s.SyncSetInstanceToHiveV1 obj P = Except.ok q →
      (s.client.Update ns q st).1 = Except.error e →
      (s.Update ctx name objInfo validate validateUpdate forceAllowCreate options w).1 =
        (none, false, some e)) ∧
    (∀ name options,
      (s.client.Delete ns name options w.store).1 = some e →
      (s.Delete ctx name options w).1 = (none, false, some e)) := by
  refine ⟨?_, ?_, ?_, ?_, ?_, ?_⟩
  · intro options optv1 hopt hlist
    simp [REST.List, getClient_some s hns, clientList, hopt, hlist]
  · intro name options hget
    simp [REST.Get, getClient_some s hns, clientGet, hget]
  · intro obj validate options p hto hcreate
    simp only [ToPersisted] at hto
    simp [REST.Create, getClient_some s hns, clientCreate, hto, hcreate]
  · intro name objInfo validate validateUpdate forceAllowCreate options hget
    rw [update_get_error s name objInfo validate validateUpdate forceAllowCreate options w
      hns hget]
  · intro name objInfo validate validateUpdate forceAllowCreate options P st old obj q
      hget hfrom hupd hto hremote
    rw [update_remote_error s name objInfo validate validateUpdate forceAllowCreate options w
      hns hget hfrom hupd hto hremote]
  · intro name options hdelete
    simp [REST.Delete, getClient_some s hns, clientDelete, hdelete]

/-- Witness of C3 on the in-memory instance: Get of an absent name returns the
not-found error of the client, and Create of a stored name returns its
already-exists error. -/
theorem remote_error_unchanged_witness :
    (demoREST.Get demoCtx "zz" 0 demoWorld).1 = (none, some (NewNotFound "zz")) ∧
    (demoREST.Create demoCtx ("a", 2) acceptAll 0 demoWorld).1 =
      (none, some (GoError.status StatusReason.AlreadyExists 409 "a")) :=
  ⟨(remote_error_unchanged demoREST demoCtx "ns1" rfl demoWorld (NewNotFound "zz")).2.1
      "zz" 0 rfl,
   (remote_error_unchanged demoREST demoCtx "ns1" rfl demoWorld
      (GoError.status StatusReason.AlreadyExists 409 "a")).2.2.1
      ("a", 2) acceptAll 0 ("a", 2) rfl rfl⟩

/-! ## Update -/

/-- C5: with a namespace present and a fetched resource that converts to the
old object, if the update function returns an error e then Update returns e
with a nil object and a false flag, and the only calls it made are the request
for the sub-client and the single remote Get: the log gains no write (no Update
and no Create call). -/
theorem update_function_error (s : REST K) (ctx : Context) (ns : String)
    (hns : ctx.ns = some ns) (name : String) (objInfo : UpdatedObjectInfo K)
    (validate : ValidateObjectFunc K) (validateUpdate : ValidateObjectUpdateFunc K)
    (forceAllowCreate : Bool) (options : K.UpdateOptions) (w : World K)
    (P : K.V1) (st : K.Store) (old : K.Api) (e : GoError)
    (hget : s.client.Get ns name s.emptyGetOptions w.store = (Except.ok P, st))
    (hfrom : FromPersisted s P = Except.ok old)
    (hupd : objInfo.UpdatedObject ctx old = Except.error e) :
    (s.Update ctx name objInfo validate validateUpdate forceAllowCreate options w).1 =
      (none, false, some e) ∧
    (s.Update ctx name objInfo validate validateUpdate forceAllowCreate options w).2.calls =
      w.calls ++ [Call.SyncSetInstances ns, Call.Get ns name s.emptyGetOptions] ∧
    ((s.Update ctx name objInfo validate validateUpdate forceAllowCreate options w).2.calls.filter
      Call.isWrite) = w.calls.filter Call.isWrite := by
  rw [update_fn_error s name objInfo validate validateUpdate forceAllowCreate options w
    hns hget hfrom hupd]
  simp [Call.isWrite]

/-- Witness of C5 on the in-memory instance: the update function reports a
conflict. -/
theorem update_function_error_witness :
    (demoREST.Update demoCtx "a" conflictObject acceptAll acceptAllUpdates false 0
      demoWorld).1 = (none, false, some (GoError.status StatusReason.Conflict 409 "conflict")) ∧
    (demoREST.Update demoCtx "a" conflictObject acceptAll acceptAllUpdates false 0
      demoWorld).2.calls = [Call.SyncSetInstances "ns1", Call.Get "ns1" "a" 0] :=
  ⟨(update_function_error demoREST demoCtx "ns1" rfl "a" conflictObject acceptAll
      acceptAllUpdates false 0 demoWorld ("a", 1) demoWorld.store ("a", 1) _ rfl rfl rfl).1,
   (update_function_error demoREST demoCtx "ns1" rfl "a" conflictObject acceptAll
      acceptAllUpdates false 0 demoWorld ("a", 1) demoWorld.store ("a", 1) _ rfl rfl rfl).2.1⟩

/-- C10: Update is a single attempt.  For every input the calls it adds to the
log are none at all, or the request for the sub-client and one remote Get, or
these two followed by one remote Update; among them there is no Create and no
second Get or Update.  If the remote Get fails, Update returns that error with a nil
object and the log ends with that Get, for either value of forceAllowCreate.
The whole outcome (result, store and call log) is the same for
forceAllowCreate true and false, and the returned created flag is always
false. -/
theorem update_single_attempt (s : REST K) (ctx : Context) (name : String)
    (objInfo : UpdatedObjectInfo K) (validate : ValidateObjectFunc K)
    (validateUpdate : ValidateObjectUpdateFunc K) (options : K.UpdateOptions) (w : World K) :
    (∀ forceAllowCreate, ∃ new : List (Call K),
      (s.Update ctx name objInfo validate validateUpdate forceAllowCreate options w).2.calls =
        w.calls ++ new ∧
      (new = [] ∨
        (∃ ns, new = [Call.SyncSetInstances ns, Call.Get ns name s.emptyGetOptions]) ∨
        (∃ ns q, new = [Call.SyncSetInstances ns, Call.Get ns name s.emptyGetOptions,
          Call.Update ns q])) ∧
      new.filter Call.isCreate = []) ∧
    (∀ forceAllowCreate ns e, ctx.ns = some ns →
      (s.client.Get ns name s.emptyGetOptions w.store).1 = Except.error e →
      (s.Update ctx name objInfo validate validateUpdate forceAllowCreate options w).1 =
        (none, false, some e) ∧
      (s.Update ctx name objInfo validate validateUpdate forceAllowCreate options w).2.calls =
        w.calls ++ [Call.SyncSetInstances ns, Call.Get ns name s.emptyGetOptions]) ∧
    s.Update ctx name objInfo validate validateUpdate true options w =
      s.Update ctx name objInfo validate validateUpdate false options w ∧
    (∀ forceAllowCreate,
      (s.Update ctx name objInfo validate validateUpdate forceAllowCreate options w).1.2.1 =
        false) := by
  refine ⟨?_, ?_, rfl, ?_⟩
  · intro forceAllowCreate
    obtain ⟨new, hcalls, _, hshape⟩ :=
      update_shape s ctx name objInfo validate validateUpdate forceAllowCreate options w
    refine ⟨new, hcalls, hshape, ?_⟩
    rcases hshape with h | ⟨ns, h⟩ | ⟨ns, q, h⟩ <;> subst h <;> rfl
  · intro forceAllowCreate ns e hns hget
    rw [update_get_error s name objInfo validate validateUpdate forceAllowCreate options w
      hns hget]
    exact ⟨rfl, rfl⟩
  · intro forceAllowCreate
    obtain ⟨_, _, hflag, _⟩ :=
      update_shape s ctx name objInfo validate validateUpdate forceAllowCreate options w
    exact hflag

/-- Witness of C10 on the in-memory instance: updating an absent name with
forceAllowCreate set returns the not-found error after one Get and creates
nothing. -/
theorem update_single_attempt_witness :
    (demoREST.Update demoCtx "zz" keepObject acceptAll acceptAllUpdates true 0 demoWorld).1 =
      (none, false, some (NewNotFound "zz")) ∧
    (demoREST.Update demoCtx "zz" keepObject acceptAll acceptAllUpdates true 0
      demoWorld).2.calls = [Call.SyncSetInstances "ns1", Call.Get "ns1" "zz" 0] :=
  (update_single_attempt demoREST demoCtx "zz" keepObject acceptAll acceptAllUpdates 0
    demoWorld).2.1 true "ns1" (NewNotFound "zz") rfl rfl

/-- C4 (counterexample): the fetched object ("b", 13) converts to the old object
("b", 13) and the update function returns it unchanged, but converting it back
fails, so Update returns that conversion error and issues no remote Update call
at all, not exactly one. -/
theorem update_noop_counterexample :
    demoREST.client.Get "ns1" "b" demoREST.emptyGetOptions demoWorld.store =
      (Except.ok ("b", 13), demoWorld.store) ∧
    FromPersisted demoREST ("b", 13) = Except.ok ("b", 13) ∧
    keepObject.UpdatedObject demoCtx ("b", 13) = Except.ok ("b", 13) ∧
    (demoREST.Update demoCtx "b" keepObject acceptAll acceptAllUpdates false 0 demoWorld).1 =
      (none, false, some (GoError.other "cannot convert to v1")) ∧
    (demoREST.Update demoCtx "b" keepObject acceptAll acceptAllUpdates false 0
      demoWorld).2.calls = [Call.SyncSetInstances "ns1", Call.Get "ns1" "b" 0] ∧
    ¬ ∃ q, (demoREST.Update demoCtx "b" keepObject acceptAll acceptAllUpdates false 0
      demoWorld).2.calls.filter Call.isUpdate = [Call.Update "ns1" q] := by
  refine ⟨rfl, rfl, rfl, rfl, rfl, ?_⟩
  rintro ⟨q, hq⟩
  have hnone : (demoREST.Update demoCtx "b" keepObject acceptAll acceptAllUpdates false 0
      demoWorld).2.calls.filter Call.isUpdate = [] := rfl
  rw [hnone] at hq
  cases hq

/-- C4 (amended): with a namespace present, a fetched resource P that converts
to O, and an update function that returns O unchanged, if converting O back
into the fetched object succeeds with q then Update issues exactly one remote
Update call and it carries q: the calls it adds are the request for the
sub-client, the Get and that Update.  When the conversion helper does not
depend on the previous content of its destination, q is ToPersisted(O). -/
theorem update_noop_carries_converted (s : REST K) (ctx : Context) (ns : String)
    (hns : ctx.ns = some ns) (name : String) (objInfo : UpdatedObjectInfo K)
    (validate : ValidateObjectFunc K) (validateUpdate : ValidateObjectUpdateFunc K)
    (forceAllowCreate : Bool) (options : K.UpdateOptions) (w : World K)
    (P q : K.V1) (st : K.Store) (O : K.Api)
    (hget : s.client.Get ns name s.emptyGetOptions w.store = (Except.ok P, st))
    (hfrom : FromPersisted s P = Except.ok O)
    (hupd : objInfo.UpdatedObject ctx O = Except.ok O)
    (hto : s.SyncSetInstanceToHiveV1 O P = Except.ok q) :
    (s.Update ctx name objInfo validate validateUpdate forceAllowCreate options w).2.calls =
      w.calls ++ [Call.SyncSetInstances ns, Call.Get ns name s.emptyGetOptions,
        Call.Update ns q] ∧
    ((s.Update ctx name objInfo validate validateUpdate forceAllowCreate options w).2.calls.filter
      Call.isUpdate) = w.calls.filter Call.isUpdate ++ [Call.Update ns q] ∧
    ((∀ x d1 d2, s.SyncSetInstanceToHiveV1 x d1 = s.SyncSetInstanceToHiveV1 x d2) →
      ToPersisted s O = Except.ok q) := by
  have hcalls :
      (s.Update ctx name objInfo validate validateUpdate forceAllowCreate options w).2.calls =
        w.calls ++ [Call.SyncSetInstances ns, Call.Get ns name s.emptyGetOptions,
          Call.Update ns q] := by
    cases hremote : (s.client.Update ns q st).1 with
    | error e =>
      rw [update_remote_error s name objInfo validate validateUpdate forceAllowCreate options
        w hns hget hfrom hupd hto hremote]
    | ok r =>
      cases hback : FromPersisted s r with
      | error e =>
        rw [update_response_error s name objInfo validate validateUpdate forceAllowCreate
          options w hns hget hfrom hupd hto hremote hback]
      | ok new =>
        rw [update_ok s name objInfo validate validateUpdate forceAllowCreate options w hns
          hget hfrom hupd hto hremote hback]
  refine ⟨hcalls, ?_, ?_⟩
  · rw [hcalls]
    simp [Call.isUpdate]
  · intro hpure
    rw [ToPersisted, hpure O s.emptyV1 P]
    exact hto

/-- Witness of C4 (amended) on the in-memory instance: a no-op update of the
stored object ("a", 1) sends ("a", 1). -/
theorem update_noop_carries_converted_witness :
    (demoREST.Update demoCtx "a" keepObject acceptAll acceptAllUpdates false 0
      demoWorld).2.calls =
      [Call.SyncSetInstances "ns1", Call.Get "ns1" "a" 0, Call.Update "ns1" ("a", 1)] ∧
    ToPersisted demoREST ("a", 1) = Except.ok ("a", 1) :=
  ⟨(update_noop_carries_converted demoREST demoCtx "ns1" rfl "a" keepObject acceptAll
      acceptAllUpdates false 0 demoWorld ("a", 1) ("a", 1) demoWorld.store ("a", 1)
      rfl rfl rfl rfl).1,
   (update_noop_carries_converted demoREST demoCtx "ns1" rfl "a" keepObject acceptAll
      acceptAllUpdates false 0 demoWorld ("a", 1) ("a", 1) demoWorld.store ("a", 1)
      rfl rfl rfl rfl).2.2 (fun _ _ _ => rfl)⟩

/-! ## Conversion errors -/

/-- C6 (counterexample): Create of ("d", 66) converts the object, the remote
Create stores it and returns it, and converting the returned object fails;
Create returns that conversion error although the log holds the remote Create
and the store holds the new object.  Likewise an Update of "a" to payload 66
returns the conversion error of the returned object after the remote Update was
made. -/
theorem conversion_error_counterexample :
    FromPersisted demoREST ("d", 66) = Except.error (GoError.other "cannot convert from v1") ∧
    (demoREST.Create demoCtx ("d", 66) acceptAll 0 demoWorld).1 =
      (none, some (GoError.other "cannot convert from v1")) ∧
    (demoREST.Create demoCtx ("d", 66) acceptAll 0 demoWorld).2.calls.filter Call.isWrite =
      [Call.Create "ns1" ("d", 66)] ∧
    (demoREST.Create demoCtx ("d", 66) acceptAll 0 demoWorld).2.store =
      [("a", 1), ("b", 13), ("c", 66), ("d", 66)] ∧
    (demoREST.Update demoCtx "a" (replaceWith ("a", 66)) acceptAll acceptAllUpdates false 0
      demoWorld).1 = (none, false, some (GoError.other "cannot convert from v1")) ∧
    (demoREST.Update demoCtx "a" (replaceWith ("a", 66)) acceptAll acceptAllUpdates false 0
      demoWorld).2.calls.filter Call.isWrite = [Call.Update "ns1" ("a", 66)] :=
  ⟨rfl, rfl, rfl, rfl, rfl, rfl⟩

/-- C6 (amended): with a namespace present, when a conversion that comes before
the remote write fails with e (converting the supplied object in Create;
converting the fetched object, or converting the new object back, in Update),
the operation returns e with a nil object and adds no Create and no Update call
to the log.  When instead the object returned by the remote Create or Update
does not convert, the operation returns that conversion error with a nil object
and the log holds exactly that one write. -/
theorem conversion_error_writes (s : REST K) (ctx : Context) (ns : String)
    (hns : ctx.ns = some ns) (w : World K) (e : GoError) :
    (∀ x validate options, ToPersisted s x = Except.error e →
      (s.Create ctx x validate options w).1 = (none, some e) ∧
      (s.Create ctx x validate options w).2.calls.filter Call.isWrite =
        w.calls.filter Call.isWrite) ∧
    (∀ name objInfo validate validateUpdate forceAllowCreate options P st,
      s.client.Get ns name s.emptyGetOptions w.store = (Except.ok P, st) →
      FromPersisted s P = Except.error e →
      (s.Update ctx name objInfo validate validateUpdate forceAllowCreate options w).1 =
        (none, false, some e) ∧
      (s.Update ctx name objInfo validate validateUpdate forceAllowCreate options
        w).2.calls.filter Call.isWrite = w.calls.filter Call.isWrite) ∧
    (∀ name objInfo validate validateUpdate forceAllowCreate options P st old obj,
      s.client.Get ns name s.emptyGetOptions w.store = (Except.ok P, st) →
      FromPersisted s P = Except.ok old →
      objInfo.UpdatedObject ctx old = Except.ok obj →
      s.SyncSetInstanceToHiveV1 obj P = Except.error e →
      (s.Update ctx name objInfo validate validateUpdate forceAllowCreate options w).1 =
        (none, false, some e) ∧
      (s.Update ctx name objInfo validate validateUpdate forceAllowCreate options
        w).2.calls.filter Call.isWrite = w.calls.filter Call.isWrite) ∧
    (∀ x validate options p r,
      ToPersisted s x = Except.ok p →
      (s.client.Create ns p w.store).1 = Except.ok r →
      FromPersisted s r = Except.error e →
      (s.Create ctx x validate options w).1 = (none, some e) ∧
      (s.Create ctx x validate options w).2.calls.filter Call.isWrite =
        w.calls.filter Call.isWrite ++ [Call.Create ns p]) ∧
    (∀ name objInfo validate validateUpdate forceAllowCreate options P st old obj q r,
      s.client.Get ns name s.emptyGetOptions w.store = (Except.ok P, st) →
      FromPersisted s P = Except.ok old →
      objInfo.UpdatedObject ctx old = Except.ok obj →
      s.SyncSetInstanceToHiveV1 obj P = Except.ok q →
      (s.client.Update ns q st).1 = Except.ok r →
      FromPersisted s r = Except.error e →
      (s.Update ctx name objInfo validate validateUpdate forceAllowCreate options w).1 =
        (none, false, some e) ∧
      (s.Update ctx name objInfo validate validateUpdate forceAllowCreate options
        w).2.calls.filter Call.isWrite = w.calls.filter Call.isWrite ++ [Call.Update ns q]) := by
  refine ⟨?_, ?_, ?_, ?_, ?_⟩
  · intro x validate options hto
    simp only [ToPersisted] at hto
    simp [REST.Create, getClient_some s hns, hto, Call.isWrite]
  · intro name objInfo validate validateUpdate forceAllowCreate options P st hget hfrom
    rw [update_from_error s name objInfo validate validateUpdate forceAllowCreate options w
      hns hget hfrom]
    simp [Call.isWrite]
  · intro name objInfo validate validateUpdate forceAllowCreate options P st old obj
      hget hfrom hupd hto
    rw [update_to_error s name objInfo validate validateUpdate forceAllowCreate options w
      hns hget hfrom hupd hto]
    simp [Call.isWrite]
  · intro x validate options p r hto hcreate hback
    simp only [ToPersisted] at hto
    simp only [FromPersisted] at hback
    simp [REST.Create, getClient_some s hns, clientCreate, hto, hcreate, hback, Call.isWrite]
  · intro name objInfo validate validateUpdate forceAllowCreate options P st old obj q r
      hget hfrom hupd hto hremote hback
    rw [update_response_error s name objInfo validate validateUpdate forceAllowCreate options
      w hns hget hfrom hupd hto hremote hback]
    simp [Call.isWrite]

/-- Witness of C6 (amended) on the in-memory instance: a Create whose object
does not convert, an Update whose fetched object does not convert, and an
Update whose new object does not convert back, all without a write; and a
Create whose returned object does not convert, after its write. -/
theorem conversion_error_writes_witness :
    (demoREST.Create demoCtx ("d", 13) acceptAll 0 demoWorld).2.calls.filter Call.isWrite =
      [] ∧
    (demoREST.Update demoCtx "c" keepObject acceptAll acceptAllUpdates false 0
      demoWorld).2.calls.filter Call.isWrite = [] ∧
    (demoREST.Update demoCtx "b" keepObject acceptAll acceptAllUpdates false 0
      demoWorld).1 = (none, false, some (GoError.other "cannot convert to v1")) ∧
    (demoREST.Create demoCtx ("d", 66) acceptAll 0 demoWorld).2.calls.filter Call.isWrite =
      [Call.Create "ns1" ("d", 66)] ∧
    (demoREST.Update demoCtx "a" (replaceWith ("a", 66)) acceptAll acceptAllUpdates false 0
      demoWorld).2.calls.filter Call.isWrite = [Call.Update "ns1" ("a", 66)] :=
  ⟨((conversion_error_writes demoREST demoCtx "ns1" rfl demoWorld
      (GoError.other "cannot convert to v1")).1 ("d", 13) acceptAll 0 rfl).2,
   ((conversion_error_writes demoREST demoCtx "ns1" rfl demoWorld
      (GoError.other "cannot convert from v1")).2.1 "c" keepObject acceptAll acceptAllUpdates
      false 0 ("c", 66) demoWorld.store rfl rfl).2,
   ((conversion_error_writes demoREST demoCtx "ns1" rfl demoWorld
      (GoError.other "cannot convert to v1")).2.2.1 "b" keepObject acceptAll acceptAllUpdates
      false 0 ("b", 13) demoWorld.store ("b", 13) ("b", 13) rfl rfl rfl rfl).1,
   ((conversion_error_writes demoREST demoCtx "ns1" rfl demoWorld
      (GoError.other "cannot convert from v1")).2.2.2.1 ("d", 66) acceptAll 0 ("d", 66)
      ("d", 66) rfl rfl rfl).2,
   ((conversion_error_writes demoREST demoCtx "ns1" rfl demoWorld
      (GoError.other "cannot convert from v1")).2.2.2.2 "a" (replaceWith ("a", 66)) acceptAll
      acceptAllUpdates false 0 ("a", 1) demoWorld.store ("a", 1) ("a", 66) ("a", 66) ("a", 66)
      rfl rfl rfl rfl rfl rfl).2⟩

end SyncSetInstanceProxy
